import Mathlib

/-
Verification model of the hipotTester device-protocol core.

Sources embedded here:
  * src/utils/parsing.py        (parse_current_input)
  * src/utils/constants.py      (TEST_TYPES keys, HID_UART_SUCCESS)
  * src/testing/test_sequencer.py
      (TestSequencer.clear_sequence_on_device, add_step_to_device,
       run_sequence, _parse_step_result)
  * src/device/v7x_device.py    (V7xDevice.close)
  * src/gui/main_window.py      (MainWindow.open_test_setup_dialog, the
       caller-side append after a successful add)

Modelling conventions: Python floats are modelled as exact decimal numbers
(sign, coefficient, power of ten); Python's "%g" formatting is modelled by
an exact 6-significant-digit formatter; device I/O is modelled by oracle
records giving the outcome of each send/query the code performs; a method's
mutation of object state is modelled by explicit state passing.
-/

namespace Hipot

/-- Digit class of the regex in src/utils/parsing.py. -/
def isPyDigit (c : Char) : Bool := '0' ≤ c && c ≤ '9'

/-- Python whitespace characters (str.strip and the regex class \s). -/
def isPySpace (c : Char) : Bool :=
  c = ' ' || c = '\t' || c = '\n' || c = '\r' || c = '\x0b' || c = '\x0c'

/-- Python str.strip(): drop whitespace from both ends. -/
def pyStrip (cs : List Char) : List Char :=
  ((cs.dropWhile isPySpace).reverse.dropWhile isPySpace).reverse

/-- Value of a big-endian list of decimal digit characters. -/
def digitsToNat (ds : List Char) : Nat :=
  ds.foldl (fun a c => a * 10 + (c.toNat - 48)) 0

/-- An exact decimal number: value = (-1)^neg * coeff * 10^exp.
Models the Python float produced by float(value_str) and later unit
division; all values reached by the code are decimal, so this is exact. -/
structure DecNum where
  neg : Bool
  coeff : Nat
  exp : Int
  deriving DecidableEq

/-- Optional exponent part of the regex mantissa: (?:[eE][-+]?\d+)?.
Returns the exponent and the remaining characters; none when an e/E is
present but not followed by a well-formed exponent (in which case the
whole regex fails: nothing after the mantissa may start with e/E). -/
def matchExpPart (cs : List Char) : Option (Int × List Char) :=
  match cs with
  | c :: rest =>
    if c = 'e' || c = 'E' then
      match rest with
      | '+' :: r =>
        let ds := r.takeWhile isPyDigit
        if ds = [] then none
        else some ((digitsToNat ds : Int), r.dropWhile isPyDigit)
      | '-' :: r =>
        let ds := r.takeWhile isPyDigit
        if ds = [] then none
        else some (-(digitsToNat ds : Int), r.dropWhile isPyDigit)
      | r =>
        let ds := r.takeWhile isPyDigit
        if ds = [] then none
        else some ((digitsToNat ds : Int), r.dropWhile isPyDigit)
    else some (0, cs)
  | [] => some (0, [])

/-- The number group of the regex
^(-?\d*\.?\d+(?:[eE][-+]?\d+)?) in src/utils/parsing.py, anchored at the
start.  Returns the exact value and the remaining characters. -/
def matchNumber (cs : List Char) : Option (DecNum × List Char) :=
  let p : Bool × List Char :=
    match cs with
    | '-' :: rest => (true, rest)
    | _ => (false, cs)
  let neg := p.1
  let cs0 := p.2
  let d1 := cs0.takeWhile isPyDigit
  let cs1 := cs0.dropWhile isPyDigit
  match cs1 with
  | '.' :: cs2 =>
    let d2 := cs2.takeWhile isPyDigit
    let cs3 := cs2.dropWhile isPyDigit
    if d2 = [] then none
    else
      match matchExpPart cs3 with
      | none => none
      | some er =>
        some ({ neg := neg, coeff := digitsToNat (d1 ++ d2),
                exp := er.1 - (d2.length : Int) }, er.2)
  | _ =>
    if d1 = [] then none
    else
      match matchExpPart cs1 with
      | none => none
      | some er => some ({ neg := neg, coeff := digitsToNat d1, exp := er.1 }, er.2)

/-- The unit group ([mu]?[aA]?)? of the regex, compiled with re.IGNORECASE
and anchored at the end of the input: the remaining characters must be
exactly an optional m/M/u/U followed by an optional a/A.  Returns the
captured text. -/
def matchUnit (cs : List Char) : Option String :=
  match cs with
  | [] => some ""
  | [c] =>
    if c = 'm' || c = 'M' || c = 'u' || c = 'U' || c = 'a' || c = 'A' then
      some (String.mk [c])
    else none
  | [c1, c2] =>
    if (c1 = 'm' || c1 = 'M' || c1 = 'u' || c1 = 'U')
        && (c2 = 'a' || c2 = 'A') then
      some (String.mk [c1, c2])
    else none
  | _ => none

/-- unit.lower() if unit else default_unit.lower() from the source. -/
def normUnit (u : String) (default_unit : String) : String :=
  if u = "" then String.mk (default_unit.data.map Char.toLower)
  else String.mk (u.data.map Char.toLower)

/-- Little-endian decimal digits of n (as characters), via fuel. -/
def natDigitsRevAux : Nat → Nat → List Char
  | 0, _ => []
  | fuel + 1, n =>
    if n = 0 then []
    else Char.ofNat (48 + n % 10) :: natDigitsRevAux fuel (n / 10)

/-- Big-endian decimal digit characters of n ("0" for zero). -/
def natDigitChars (n : Nat) : List Char :=
  if n = 0 then ['0'] else (natDigitsRevAux n n).reverse

/-- Remove trailing zero characters. -/
def stripTrailingZeros (ds : List Char) : List Char :=
  (ds.reverse.dropWhile (fun c => c = '0')).reverse

/-- Round a positive decimal (coeff * 10^exp) to at most six significant
digits, half-to-even, as Python's "%g" formatting does.  Returns the
significant digits (trailing zeros removed) and the decimal exponent of
the leading digit. -/
def round6 (coeff : Nat) (exp : Int) : List Char × Int :=
  let ds := natDigitChars coeff
  let L := ds.length
  let e : Int := (L : Int) - 1 + exp
  if L ≤ 6 then (stripTrailingZeros ds, e)
  else
    let divisor := 10 ^ (L - 6)
    let q := coeff / divisor
    let r := coeff % divisor
    let q6 := if 2 * r < divisor then q
      else if divisor < 2 * r then q + 1
      else if q % 2 = 0 then q else q + 1
    if q6 = 1000000 then (['1'], e + 1)
    else (stripTrailingZeros (natDigitChars q6), e)

/-- Fixed-point rendering used by "%g" when -4 <= exponent < 6. -/
def fmtFixed (sig : List Char) (e : Int) : List Char :=
  if 0 ≤ e then
    let k := e.toNat + 1
    if sig.length ≤ k then sig ++ List.replicate (k - sig.length) '0'
    else sig.take k ++ '.' :: sig.drop k
  else '0' :: '.' :: (List.replicate (-(e + 1)).toNat '0' ++ sig)

/-- Scientific rendering used by "%g" otherwise (exponent always signed,
padded to at least two digits). -/
def fmtSci (sig : List Char) (e : Int) : List Char :=
  let mant : List Char :=
    match sig with
    | [] => []
    | [c] => [c]
    | c :: rest => c :: '.' :: rest
  let ea := natDigitChars e.natAbs
  let ed := if ea.length < 2 then '0' :: ea else ea
  mant ++ 'e' :: (if e < 0 then '-' else '+') :: ed

/-- Python f-string "%g" formatting (default precision 6) on an exact
decimal value. -/
def fmtDec (d : DecNum) : String :=
  if d.coeff = 0 then (if d.neg then "-0" else "0")
  else
    let se := round6 d.coeff d.exp
    let body := if -4 ≤ se.2 && se.2 < 6 then fmtFixed se.1 se.2 else fmtSci se.1 se.2
    String.mk ((if d.neg then ['-'] else []) ++ body)

/-- parse_current_input from src/utils/parsing.py.
Blank input returns "" (modelled some ""); a failed parse returns None
(modelled none); otherwise the value is converted to Amps per the unit
suffix and rendered with "%g". -/
def parse_current_input (input_str : String) (default_unit : String := "A") :
    Option String :=
  if input_str = "" then some ""
  else
    match matchNumber (pyStrip input_str.data) with
    | none => none
    | some vr =>
      match matchUnit (vr.2.dropWhile isPySpace) with
      | none => none
      | some ug =>
        let unit := normUnit ug default_unit
        if unit = "ma" then some (fmtDec { vr.1 with exp := vr.1.exp - 3 })
        else if unit = "ua" then some (fmtDec { vr.1 with exp := vr.1.exp - 6 })
        else if unit = "a" then some (fmtDec vr.1)
        else none

/-- Python str.split on a single comma: every comma separates fields. -/
def splitComma : List Char → List (List Char)
  | [] => [[]]
  | c :: rest =>
    let r := splitComma rest
    if c = ',' then [] :: r
    else
      match r with
      | g :: gs => (c :: g) :: gs
      | [] => [[c]]

/-- The comma-separated fields of a STEPRSLT? record. -/
def stepFields (s : String) : List String :=
  (splitComma s.data).map (fun cs => String.mk cs)

/-- TestSequencer._parse_step_result from src/testing/test_sequencer.py.
The dictionary is modelled as an insertion-ordered association list.  The
two except branches of the source return None, but the length guards make
them unreachable: splitting and guarded indexing cannot raise. -/
def parse_step_result (result_string : String) : Option (List (String × String)) :=
  let fields := stepFields result_string
  let parsed :=
    if 6 ≤ fields.length then
      [("term_state", fields.getD 0 ""), ("elapsed_time", fields.getD 1 ""),
       ("status_code", fields.getD 2 ""), ("level", fields.getD 3 ""),
       ("limit", fields.getD 4 ""), ("measurement", fields.getD 5 "")]
    else []
  let parsed2 :=
    if 7 ≤ fields.length then parsed ++ [("optional1", fields.getD 6 "")]
    else parsed
  some parsed2

/-- Keys of TEST_TYPES in src/utils/constants.py. -/
def testTypeKeys : List String := ["ACW", "DCW", "IR", "CONT", "GND"]

/-- HID_UART_SUCCESS from src/utils/constants.py. -/
def HID_UART_SUCCESS : Nat := 0

/-- A step configuration dictionary as built by the test-setup dialog.
A field holding none models an absent dictionary key. -/
structure StepConfig where
  type : Option String := none
  voltage : Option String := none
  ramp_time : Option String := none
  dwell_time : Option String := none
  min_limit : Option String := none
  max_limit : Option String := none
  current : Option String := none
  freq : Option String := none
  ground_check : Bool := false
  step_name : Option String := none
  deriving DecidableEq

/-- The TestSequencer fields touched by the modelled methods. -/
structure SeqState where
  sequence : List StepConfig := []
  current_sequence_id : Option Nat := none
  current_sequence_name : Option String := none
  current_sequence_description : Option String := none
  deriving DecidableEq

/-- Device-oracle for one add_step_to_device call: whether the device is
open, the outcome of each send_command, and the *ERR? response after the
ADD command (none models an unreadable register). -/
structure AddDevice where
  is_open : Bool
  sendOK : String → Bool
  errResp : Option String

/-- The per-type parameter lists of add_step_to_device (with the source's
per-type defaults for missing keys); none models the ValueError raised on
an invalid current-limit format. -/
def buildParams (t : String) (cfg : StepConfig) : Option (List String) :=
  if t = "ACW" then
    let voltage := cfg.voltage.getD "1000"
    let ramp_time := cfg.ramp_time.getD "1.0"
    let dwell_time := cfg.dwell_time.getD "2.0"
    match parse_current_input (cfg.min_limit.getD ""),
        parse_current_input (cfg.max_limit.getD "5mA") with
    | some mn, some mx =>
      some ([voltage, ramp_time, dwell_time, mn, mx]
        ++ (if cfg.ground_check then ["GND"] else []))
    | _, _ => none
  else if t = "DCW" then
    let voltage := cfg.voltage.getD "1000"
    let ramp_time := cfg.ramp_time.getD "1.0"
    let dwell_time := cfg.dwell_time.getD "2.0"
    match parse_current_input (cfg.min_limit.getD ""),
        parse_current_input (cfg.max_limit.getD "5mA") with
    | some mn, some mx =>
      some ([voltage, ramp_time, dwell_time, mn, mx]
        ++ (if cfg.ground_check then ["GND"] else []))
    | _, _ => none
  else if t = "IR" then
    some [cfg.voltage.getD "500", cfg.ramp_time.getD "1.0",
          cfg.dwell_time.getD "2.0", cfg.min_limit.getD "", cfg.max_limit.getD ""]
  else if t = "CONT" then
    some [cfg.current.getD "0.1", cfg.min_limit.getD "",
          cfg.max_limit.getD "0.1", cfg.dwell_time.getD "1.0"]
  else if t = "GND" then
    some [cfg.current.getD "10", cfg.max_limit.getD "0.1",
          cfg.dwell_time.getD "2.0", cfg.freq.getD "60"]
  else none

/-- The ADD command string: "ADD,<type>" followed by ","+param for each
parameter (empty strings kept as empty fields). -/
def mkAddCommand (t : String) (params : List String) : String :=
  params.foldl (fun acc p => acc ++ "," ++ p) ("ADD," ++ t)

/-- TestSequencer.add_step_to_device.  Returns (result, sequencer state
after the call, commands passed to send_command).  The method never
assigns self.sequence or the current-sequence identity, so every branch
returns the incoming state. -/
def add_step_to_device (dev : AddDevice) (st : SeqState) (cfg : StepConfig) :
    Bool × SeqState × List String :=
  if dev.is_open = false then (false, st, [])
  else
    match cfg.type with
    | none => (false, st, [])
    | some t =>
      if t = "" ∨ t ∉ testTypeKeys then (false, st, [])
      else
        match buildParams t cfg with
        | none => (false, st, [])
        | some params =>
          let add_command := mkAddCommand t params
          if dev.sendOK add_command = false then (false, st, [add_command])
          else
            match dev.errResp with
            | none => (true, st, [add_command])
            | some e =>
              if e ≠ "0" then (false, st, [add_command])
              else (true, st, [add_command])

/-- MainWindow.open_test_setup_dialog, the accepted-dialog path: call
add_step_to_device and append the step to sequencer.sequence only when the
call reported success. -/
def open_test_setup_add (dev : AddDevice) (st : SeqState) (cfg : StepConfig) :
    SeqState :=
  if (add_step_to_device dev st cfg).1 = true then
    { (add_step_to_device dev st cfg).2.1 with
      sequence := (add_step_to_device dev st cfg).2.1.sequence ++ [cfg] }
  else (add_step_to_device dev st cfg).2.1

/-- A run of caller-side adds (one device oracle per attempt). -/
def addMany : List (AddDevice × StepConfig) → SeqState → SeqState
  | [], st => st
  | p :: rest, st => addMany rest (open_test_setup_add p.1 st p.2)

/-- The add succeeds (its result does not depend on the sequencer state). -/
def addSucceeds (dev : AddDevice) (cfg : StepConfig) : Prop :=
  (add_step_to_device dev { sequence := [] } cfg).1 = true

/-- Device oracle for one clear_sequence_on_device call. -/
structure ClearDevice where
  is_open : Bool
  errPre : Option String
  noseqOK : Bool
  errPost : Option String

/-- TestSequencer.clear_sequence_on_device.  Returns (result, sequencer
state after the call, commands passed to send_command).  The in-memory
sequence and the current-sequence identity are reset only on the success
path, after the post-NOSEQ error check. -/
def clear_sequence_on_device (dev : ClearDevice) (st : SeqState) :
    Bool × SeqState × List String :=
  if dev.is_open = false then (false, st, [])
  else
    let preTrace :=
      match dev.errPre with
      | some e => if e ≠ "" && e ≠ "0" then ["*CLS"] else []
      | none => []
    if dev.noseqOK = false then (false, st, preTrace ++ ["NOSEQ"])
    else
      match dev.errPost with
      | none => (false, st, preTrace ++ ["NOSEQ"])
      | some e =>
        if e ≠ "0" then (false, st, preTrace ++ ["NOSEQ"])
        else (true, { sequence := [], current_sequence_id := none,
                      current_sequence_name := none,
                      current_sequence_description := none },
              preTrace ++ ["NOSEQ"])

/-- Outcome of the RUN? polling loop in run_sequence. -/
inductive PollOutcome
  | done
  | abort (status : String)
  | timeout
  deriving DecidableEq

/-- The RUN? polling loop: "0" finishes, "1" and an unreadable (None)
response keep polling, any other value aborts; an exhausted response list
models the wall-clock ceiling being exceeded. -/
def pollRun : List (Option String) → PollOutcome
  | [] => PollOutcome.timeout
  | r :: rest =>
    if r = some "0" then PollOutcome.done
    else if r = some "1" then pollRun rest
    else if r = none then pollRun rest
    else PollOutcome.abort (r.getD "")

/-- Device oracle for one run_sequence call: the successive RUN? responses
and the result-query responses. -/
structure RunDevice where
  is_open : Bool
  sendOK : String → Bool
  polls : List (Option String)
  rslt : Option String
  stepRslt : Nat → Option String

/-- One entry of the per-step results list. -/
structure StepResult where
  step_number : Nat
  raw : Option String
  parsed : Option (List (String × String))
  deriving DecidableEq

/-- The structured result report of run_sequence. -/
structure RunResults where
  overall : Option String
  steps : List StepResult
  deriving DecidableEq

/-- TestSequencer.run_sequence.  Returns (results or None, commands passed
to send_command).  None models every abnormal finish: device closed, empty
local sequence, failed RUN send, anomalous poll status, or timeout. -/
def run_sequence (dev : RunDevice) (st : SeqState) :
    Option RunResults × List String :=
  if dev.is_open = false then (none, [])
  else if st.sequence.length ≤ 0 then (none, [])
  else if dev.sendOK "RUN" = false then (none, ["*CLS", "RUN"])
  else
    match pollRun dev.polls with
    | PollOutcome.abort _ => (none, ["*CLS", "RUN", "ABORT"])
    | PollOutcome.timeout => (none, ["*CLS", "RUN", "ABORT"])
    | PollOutcome.done =>
      let steps := (List.range st.sequence.length).map (fun i =>
        let n := i + 1
        let raw := dev.stepRslt n
        ({ step_number := n, raw := raw,
           parsed :=
             match raw with
             | some s => if s = "" then none else parse_step_result s
             | none => none } : StepResult))
      (some { overall := dev.rslt, steps := steps }, ["*CLS", "RUN"])

/-- The V7xDevice fields read and written by close(). -/
structure V7xDriver where
  dll_loaded : Bool
  device_handle : Option Nat
  is_open : Bool
  closeStatus : Nat
  deriving DecidableEq

/-- Python truthiness of the ctypes handle: null (None value) or zero. -/
def handleFalsy : Option Nat → Bool
  | none => true
  | some v => v = 0

/-- V7xDevice.close from src/device/v7x_device.py. -/
def close (d : V7xDriver) : Bool × V7xDriver :=
  if d.is_open = false ∨ handleFalsy d.device_handle = true then
    (true, { d with is_open := false })
  else if d.dll_loaded = false then
    (false, { d with is_open := false })
  else
    let d2 : V7xDriver := { d with device_handle := none, is_open := false }
    if d.closeStatus = HID_UART_SUCCESS then (true, d2) else (false, d2)

/-- Concrete fixtures used to instantiate the theorems below. -/
def devOKw : AddDevice :=
  { is_open := true, sendOK := fun _ => true, errResp := some "0" }

def devClosedw : AddDevice :=
  { is_open := false, sendOK := fun _ => true, errResp := some "0" }

def devErrNonew : AddDevice :=
  { is_open := true, sendOK := fun _ => true, errResp := none }

def devErrBadw : AddDevice :=
  { is_open := true, sendOK := fun _ => true, errResp := some "13" }

def st0 : SeqState := {}

def cfgACWw : StepConfig :=
  { type := some "ACW", voltage := some "1000", ramp_time := some "1.0",
    dwell_time := some "2.0", min_limit := some "", max_limit := some "5mA" }

def cfgContBad : StepConfig := { type := some "CONT", current := some "abc" }

def cfgAcwBadMin : StepConfig := { type := some "ACW", min_limit := some "zz" }

def emptyCfg (t : String) : StepConfig := { type := some t }

def stOne : SeqState := { sequence := [emptyCfg "ACW"] }

def devRunNoneDone : RunDevice :=
  { is_open := true, sendOK := fun _ => true, polls := [none, some "0"],
    rslt := some "0", stepRslt := fun _ => none }

def devRunAll2 : RunDevice :=
  { is_open := true, sendOK := fun _ => true, polls := [some "2"],
    rslt := some "0", stepRslt := fun _ => none }

def devClearFailw : ClearDevice :=
  { is_open := true, errPre := some "0", noseqOK := false, errPost := some "0" }

def devClearOKw : ClearDevice :=
  { is_open := true, errPre := some "0", noseqOK := true, errPost := some "0" }

def stLoaded : SeqState :=
  { sequence := [emptyCfg "ACW"], current_sequence_id := some 7,
    current_sequence_name := some "seq", current_sequence_description := some "d" }

def driverNeverOpened : V7xDriver :=
  { dll_loaded := false, device_handle := none, is_open := false, closeStatus := 0 }

/-- add_step_to_device returns the incoming sequencer state untouched and a
result and trace that do not depend on that state: the method reads only
self.device and never assigns self.sequence or the identity fields. -/
theorem add_step_shape (dev : AddDevice) (st : SeqState) (cfg : StepConfig) :
    add_step_to_device dev st cfg
      = ((add_step_to_device dev st0 cfg).1, st,
         (add_step_to_device dev st0 cfg).2.2) := by
  by_cases ho : dev.is_open = false
  · simp [add_step_to_device, ho]
  · rcases htype : cfg.type with _ | t
    · simp [add_step_to_device, ho, htype]
    · by_cases hg : t = "" ∨ t ∉ testTypeKeys
      · simp [add_step_to_device, ho, htype, hg]
      · rcases hb : buildParams t cfg with _ | ps
        · simp [add_step_to_device, ho, htype, hg, hb]
        · by_cases hs : dev.sendOK (mkAddCommand t ps) = false
          · simp [add_step_to_device, ho, htype, hg, hb, hs]
          · rcases he : dev.errResp with _ | e
            · simp [add_step_to_device, ho, htype, hg, hb, hs, he]
            · by_cases he0 : e ≠ "0"
              · simp [add_step_to_device, ho, htype, hg, hb, hs, he, he0]
              · simp [add_step_to_device, ho, htype, hg, hb, hs, he, he0]

/-- Frame: the state component of add_step_to_device is the input state. -/
theorem add_state_frame (dev : AddDevice) (st : SeqState) (cfg : StepConfig) :
    (add_step_to_device dev st cfg).2.1 = st := by
  rw [add_step_shape]

/-- The result of add_step_to_device does not depend on the state. -/
theorem add_fst_indep (dev : AddDevice) (st st2 : SeqState) (cfg : StepConfig) :
    (add_step_to_device dev st cfg).1 = (add_step_to_device dev st2 cfg).1 := by
  rw [add_step_shape dev st cfg, add_step_shape dev st2 cfg]

/-- When the parameter build raises (invalid current limit), the add fails
with no command sent, whatever the device oracle. -/
theorem add_step_build_none (dev : AddDevice) (st : SeqState) (cfg : StepConfig)
    (t : String) (htype : cfg.type = some t) (hb : buildParams t cfg = none) :
    (add_step_to_device dev st cfg).1 = false
    ∧ (add_step_to_device dev st cfg).2.2 = [] := by
  by_cases ho : dev.is_open = false
  · simp [add_step_to_device, ho]
  · by_cases hg : t = "" ∨ t ∉ testTypeKeys
    · simp [add_step_to_device, ho, htype, hg]
    · simp [add_step_to_device, ho, htype, hg, hb]

/-- Every branch of close() leaves the driver in the closed state. -/
theorem close_state_closed (d : V7xDriver) : (close d).2.is_open = false := by
  unfold close
  repeat' split
  all_goals rfl

/-- close() on a driver whose open flag is already down returns success. -/
theorem close_closed_true (d : V7xDriver) (h : d.is_open = false) :
    (close d).1 = true := by
  unfold close
  rw [if_pos (Or.inl h)]

/-- Claim C1: add_step_to_device never mutates the in-memory sequence list:
for every step configuration and every outcome the sequencer state after
the call equals the state before it; a failed add leaves the caller-side
state unchanged; and N successful adds each followed by the caller-side
append produce a sequence of length N holding the steps in insertion
order. -/
theorem add_step_never_mutates_sequence :
    (∀ (dev : AddDevice) (st : SeqState) (cfg : StepConfig),
      (add_step_to_device dev st cfg).2.1 = st)
    ∧ (∀ (dev : AddDevice) (st : SeqState) (cfg : StepConfig),
        (add_step_to_device dev st cfg).1 = false →
        open_test_setup_add dev st cfg = st)
    ∧ (∀ (l : List (AddDevice × StepConfig)) (st : SeqState),
        (∀ p ∈ l, addSucceeds p.1 p.2) →
        (addMany l st).sequence = st.sequence ++ l.map Prod.snd) := by
  refine ⟨add_state_frame, fun dev st cfg h => ?_, fun l => ?_⟩
  · unfold open_test_setup_add
    rw [if_neg (by simp [h]), add_state_frame]
  · induction l with
    | nil => intro st _; simp [addMany]
    | cons p rest ih =>
      intro st h
      have hrest : ∀ q ∈ rest, addSucceeds q.1 q.2 :=
        fun q hq => h q (List.mem_cons_of_mem p hq)
      have hsucc : (add_step_to_device p.1 st p.2).1 = true := by
        rw [add_fst_indep p.1 st { sequence := [] } p.2]
        exact h p (List.mem_cons_self p rest)
      have hstep : open_test_setup_add p.1 st p.2
          = { st with sequence := st.sequence ++ [p.2] } := by
        unfold open_test_setup_add
        rw [if_pos hsucc, add_state_frame]
      simp only [addMany]
      rw [hstep, ih { st with sequence := st.sequence ++ [p.2] } hrest]
      simp

/-- Witness for C1 at concrete inputs: a successful add leaves a loaded
state untouched, a failed add leaves the caller-side state untouched, and
one successful add plus caller append yields a one-step sequence. -/
theorem add_step_never_mutates_sequence_witness :
    (add_step_to_device devOKw stLoaded cfgACWw).2.1 = stLoaded
    ∧ open_test_setup_add devClosedw st0 cfgACWw = st0
    ∧ (addMany [(devOKw, cfgACWw)] st0).sequence = st0.sequence ++ [cfgACWw] := by
  refine ⟨add_step_never_mutates_sequence.1 devOKw stLoaded cfgACWw,
    add_step_never_mutates_sequence.2.1 devClosedw st0 cfgACWw (by decide), ?_⟩
  refine add_step_never_mutates_sequence.2.2 [(devOKw, cfgACWw)] st0 ?_
  intro p hp
  have hp2 : p = (devOKw, cfgACWw) := by simpa using hp
  rw [hp2]
  unfold addSucceeds
  decide

/-- Claim C2, counterexample: the claim says an unreadable (None) *ERR?
response after the ADD command makes add_step_to_device return failure,
but the source returns True on that path ("Assume success for now"):
with a device whose error query is unreadable, the add reports success. -/
theorem add_step_err_none_returns_true :
    devErrNonew.errResp = none
    ∧ (add_step_to_device devErrNonew st0 cfgACWw).1 = true := by decide

/-- Claim C2, amended: after the ADD command is sent, the engine queries
the device error register; a readable non-zero response makes
add_step_to_device return failure, a readable "0" and an unreadable
(None) response both make it return success (the unreadable case is a
warning only). -/
theorem add_step_err_query_corrected :
    ∀ (dev : AddDevice) (st : SeqState) (cfg : StepConfig) (t : String)
      (params : List String),
      dev.is_open = true →
      cfg.type = some t →
      ¬(t = "" ∨ t ∉ testTypeKeys) →
      buildParams t cfg = some params →
      dev.sendOK (mkAddCommand t params) = true →
      ((dev.errResp = none → (add_step_to_device dev st cfg).1 = true)
       ∧ (∀ e : String, dev.errResp = some e → e ≠ "0" →
          (add_step_to_device dev st cfg).1 = false)
       ∧ (dev.errResp = some "0" → (add_step_to_device dev st cfg).1 = true)) := by
  intro dev st cfg t params hopen htype hguard hbuild hsend
  have ho : ¬(dev.is_open = false) := by simp [hopen]
  refine ⟨fun he => ?_, fun e he he0 => ?_, fun he => ?_⟩
  · simp [add_step_to_device, ho, htype, hguard, hbuild, hsend, he]
  · simp [add_step_to_device, ho, htype, hguard, hbuild, hsend, he, he0]
  · simp [add_step_to_device, ho, htype, hguard, hbuild, hsend, he]

/-- Witness for the amended C2 at concrete devices: unreadable error gives
success, error "13" gives failure, error "0" gives success. -/
theorem add_step_err_query_corrected_witness :
    (add_step_to_device devErrNonew st0 cfgACWw).1 = true
    ∧ (add_step_to_device devErrBadw st0 cfgACWw).1 = false
    ∧ (add_step_to_device devOKw st0 cfgACWw).1 = true := by
  have h1 := add_step_err_query_corrected devErrNonew st0 cfgACWw "ACW"
    ["1000", "1.0", "2.0", "", "0.005"] rfl rfl (by decide) (by decide) rfl
  have h2 := add_step_err_query_corrected devErrBadw st0 cfgACWw "ACW"
    ["1000", "1.0", "2.0", "", "0.005"] rfl rfl (by decide) (by decide) rfl
  have h3 := add_step_err_query_corrected devOKw st0 cfgACWw "ACW"
    ["1000", "1.0", "2.0", "", "0.005"] rfl rfl (by decide) (by decide) rfl
  exact ⟨h1.1 rfl, h2.2.1 "13" rfl (by decide), h3.2.2 rfl⟩

/-- Claim C8: for an ACW step with voltage 1000, ramp 1.0, dwell 2.0,
blank min limit, max limit "5mA" and no ground check, the command sent is
exactly "ADD,ACW,1000,1.0,2.0,,0.005" (blank fields transmitted, not
omitted) and the add succeeds. -/
theorem add_step_acw_command_exact :
    (add_step_to_device devOKw st0 cfgACWw).2.2 = ["ADD,ACW,1000,1.0,2.0,,0.005"]
    ∧ (add_step_to_device devOKw st0 cfgACWw).1 = true := by decide

/-- Claim C10: a step configuration holding only its type gets the
per-type defaults substituted into the ADD command (ACW/DCW voltage 1000,
ramp 1.0, dwell 2.0, max limit 5mA rendered 0.005; IR voltage 500; CONT
current 0.1, max limit 0.1, dwell 1.0; GND current 10, max limit 0.1,
dwell 2.0, freq 60), and the add succeeds instead of failing. -/
theorem add_step_default_substitution :
    ((add_step_to_device devOKw st0 (emptyCfg "ACW")).1 = true
     ∧ (add_step_to_device devOKw st0 (emptyCfg "ACW")).2.2
        = ["ADD,ACW,1000,1.0,2.0,,0.005"])
    ∧ ((add_step_to_device devOKw st0 (emptyCfg "DCW")).1 = true
       ∧ (add_step_to_device devOKw st0 (emptyCfg "DCW")).2.2
          = ["ADD,DCW,1000,1.0,2.0,,0.005"])
    ∧ ((add_step_to_device devOKw st0 (emptyCfg "IR")).1 = true
       ∧ (add_step_to_device devOKw st0 (emptyCfg "IR")).2.2
          = ["ADD,IR,500,1.0,2.0,,"])
    ∧ ((add_step_to_device devOKw st0 (emptyCfg "CONT")).1 = true
       ∧ (add_step_to_device devOKw st0 (emptyCfg "CONT")).2.2
          = ["ADD,CONT,0.1,,0.1,1.0"])
    ∧ ((add_step_to_device devOKw st0 (emptyCfg "GND")).1 = true
       ∧ (add_step_to_device devOKw st0 (emptyCfg "GND")).2.2
          = ["ADD,GND,10,0.1,2.0,60"]) := by decide

/-- Claim C3, counterexample: the claim says every poll response other
than "0" and "1", including an unreadable (None) response, makes the
controller send ABORT and report the run as aborted; but the source keeps
polling on a None response: with poll responses None then "0" the run
completes with results and no ABORT is sent. -/
theorem run_poll_none_then_done :
    devRunNoneDone.polls = [none, some "0"]
    ∧ (run_sequence devRunNoneDone stOne).1.isSome = true
    ∧ "ABORT" ∉ (run_sequence devRunNoneDone stOne).2 := by decide

/-- Claim C3, amended: every readable poll response other than "0" and
"1" aborts the polling loop immediately; an unreadable (None) response
continues polling; whenever the polling loop does not finish with "0"
(abort or timeout) the controller sends ABORT and reports the run as
aborted (None result, never a completed result); in particular a device
that always answers "2" is reported aborted. -/
theorem run_poll_anomaly_corrected :
    (∀ (dev : RunDevice) (st : SeqState),
      dev.is_open = true → st.sequence ≠ [] → dev.sendOK "RUN" = true →
      pollRun dev.polls ≠ PollOutcome.done →
      (run_sequence dev st).1 = none ∧ "ABORT" ∈ (run_sequence dev st).2)
    ∧ (∀ (r : Option String) (rest : List (Option String)),
        r ≠ some "0" → r ≠ some "1" → r ≠ none →
        pollRun (r :: rest) = PollOutcome.abort (r.getD ""))
    ∧ (∀ rest : List (Option String), pollRun (none :: rest) = pollRun rest)
    ∧ (∀ p : List (Option String), p ≠ [] → (∀ x ∈ p, x = some "2") →
        pollRun p = PollOutcome.abort "2") := by
  refine ⟨?_, ?_, ?_, ?_⟩
  · intro dev st h1 h2 h3 h4
    have ho : ¬(dev.is_open = false) := by simp [h1]
    have hlen : ¬(st.sequence.length ≤ 0) := by
      simpa [Nat.le_zero, List.length_eq_zero] using h2
    have hs : ¬(dev.sendOK "RUN" = false) := by simp [h3]
    cases hp : pollRun dev.polls with
    | done => exact absurd hp h4
    | abort s =>
      exact ⟨by simp [run_sequence, ho, hlen, hs, hp],
        by simp [run_sequence, ho, hlen, hs, hp]⟩
    | timeout =>
      exact ⟨by simp [run_sequence, ho, hlen, hs, hp],
        by simp [run_sequence, ho, hlen, hs, hp]⟩
  · intro r rest h0 h1 hn
    simp only [pollRun]
    rw [if_neg h0, if_neg h1, if_neg hn]
  · intro rest
    simp [pollRun]
  · intro p
    induction p with
    | nil => intro h _; exact absurd rfl h
    | cons x rest ih =>
      intro _ hall
      have hx : x = some "2" := hall x (List.mem_cons_self x rest)
      subst hx
      simp [pollRun]

/-- Witness for the amended C3 at concrete inputs: a device answering
only "2" is reported aborted with ABORT sent, and the loop facts hold on
the [some "2"] poll list. -/
theorem run_poll_anomaly_corrected_witness :
    ((run_sequence devRunAll2 stOne).1 = none
     ∧ "ABORT" ∈ (run_sequence devRunAll2 stOne).2)
    ∧ pollRun [some "2"] = PollOutcome.abort "2"
    ∧ pollRun [none, some "0"] = pollRun [some "0"] := by
  refine ⟨run_poll_anomaly_corrected.1 devRunAll2 stOne rfl (by decide) rfl
      (by decide), ?_, ?_⟩
  · exact run_poll_anomaly_corrected.2.2.2 [some "2"] (by decide) (by decide)
  · exact run_poll_anomaly_corrected.2.2.1 [some "0"]

/-- Claim C4, counterexample: the claim says fewer than 6 comma-separated
fields makes the step-result parser return the failure sentinel None, but
the source's length guards skip the field assignments and the function
returns the still-empty dictionary: on "x,y" the result is an empty
structure, not None. -/
theorem parse_step_result_two_fields :
    parse_step_result "x,y" = some []
    ∧ ¬(parse_step_result "x,y" = none) := by decide

/-- Claim C4, amended: the step-result parser splits on commas; with at
least 6 fields it returns a structure whose term_state, elapsed_time,
status_code, level, limit and measurement equal fields 1..6 in order, a
7th field additionally populating optional1; with fewer than 6 fields it
returns an empty structure (no fields populated) rather than None, the
raw string being retained at the call site. -/
theorem parse_step_result_fields_corrected :
    ∀ s : String,
      (6 ≤ (stepFields s).length →
        parse_step_result s = some
          ([("term_state", (stepFields s).getD 0 ""),
            ("elapsed_time", (stepFields s).getD 1 ""),
            ("status_code", (stepFields s).getD 2 ""),
            ("level", (stepFields s).getD 3 ""),
            ("limit", (stepFields s).getD 4 ""),
            ("measurement", (stepFields s).getD 5 "")]
           ++ (if 7 ≤ (stepFields s).length then
                [("optional1", (stepFields s).getD 6 "")] else [])))
      ∧ ((stepFields s).length < 6 → parse_step_result s = some []) := by
  intro s
  constructor
  · intro h6
    simp only [parse_step_result]
    rw [if_pos h6]
    by_cases h7 : 7 ≤ (stepFields s).length
    · rw [if_pos h7, if_pos h7]
    · rw [if_neg h7, if_neg h7]
      simp
  · intro hlt
    simp only [parse_step_result]
    rw [if_neg (by omega), if_neg (by omega)]

/-- Witness for the amended C4: a 6-field record parses to the six named
fields in order, and a 2-field record parses to the empty structure. -/
theorem parse_step_result_fields_corrected_witness :
    parse_step_result "4,1.2,0,1000,0.005,0.0012"
        = some [("term_state", "4"), ("elapsed_time", "1.2"),
                ("status_code", "0"), ("level", "1000"),
                ("limit", "0.005"), ("measurement", "0.0012")]
    ∧ parse_step_result "x,y" = some [] := by
  constructor
  · rw [(parse_step_result_fields_corrected "4,1.2,0,1000,0.005,0.0012").1
      (by decide)]
    decide
  · exact (parse_step_result_fields_corrected "x,y").2 (by decide)

/-- Claim C5, counterexample: the claim says every string not matching
the grammar number-[m|u]?-[A|a]? returns None, never a numeric string;
"10MA" is outside that grammar (the m/u letters are given lowercase), yet
the source compiles its regex with re.IGNORECASE and returns the numeric
string "0.01". -/
theorem parse_current_uppercase_unit :
    parse_current_input "10MA" = some "0.01" := by decide

/-- Claim C5, amended: blank input maps to ""; the grammar is applied to
the whitespace-stripped input, allows whitespace between number and unit,
and matches the unit letters case-insensitively; a match with unit ma
scales by 1/1000, ua by 1/1e6, a or no unit is unscaled, each rendered in
the %g general format ("10mA" to "0.01", "50uA" to "5e-05", "0.01A" to
"0.01", "15" to "15"); any non-matching input and any matching input with
an unknown unit (a bare m or u) returns None, never a numeric string. -/
theorem parse_current_corrected :
    (parse_current_input "" = some "")
    ∧ (parse_current_input "10mA" = some "0.01"
       ∧ parse_current_input "50uA" = some "5e-05"
       ∧ parse_current_input "0.01A" = some "0.01"
       ∧ parse_current_input "15" = some "15")
    ∧ (∀ s : String, s ≠ "" → matchNumber (pyStrip s.data) = none →
        parse_current_input s = none)
    ∧ (∀ (s : String) (v : DecNum) (rest : List Char) (u : String),
        s ≠ "" →
        matchNumber (pyStrip s.data) = some (v, rest) →
        matchUnit (rest.dropWhile isPySpace) = some u →
        ((normUnit u "A" = "ma" →
            parse_current_input s = some (fmtDec { v with exp := v.exp - 3 }))
         ∧ (normUnit u "A" = "ua" →
            parse_current_input s = some (fmtDec { v with exp := v.exp - 6 }))
         ∧ (normUnit u "A" = "a" → parse_current_input s = some (fmtDec v))
         ∧ (normUnit u "A" ≠ "ma" → normUnit u "A" ≠ "ua" →
            normUnit u "A" ≠ "a" → parse_current_input s = none)))
    ∧ (∀ (s : String) (v : DecNum) (rest : List Char),
        s ≠ "" →
        matchNumber (pyStrip s.data) = some (v, rest) →
        matchUnit (rest.dropWhile isPySpace) = none →
        parse_current_input s = none) := by
  refine ⟨by decide, ⟨by decide, by decide, by decide, by decide⟩, ?_, ?_, ?_⟩
  · intro s hs hm
    simp [parse_current_input, hs, hm]
  · intro s v rest u hs hm hu
    refine ⟨fun h => ?_, fun h => ?_, fun h => ?_, fun h1 h2 h3 => ?_⟩
    · simp [parse_current_input, hs, hm, hu, h]
    · simp [parse_current_input, hs, hm, hu, h]
    · simp [parse_current_input, hs, hm, hu, h]
    · simp [parse_current_input, hs, hm, hu, h1, h2, h3]
  · intro s v rest hs hm hu
    simp [parse_current_input, hs, hm, hu]

/-- Witness for the amended C5: "abc" does not match the number grammar
and returns None; "10m" matches the grammar but carries the unknown unit
m and returns None. -/
theorem parse_current_corrected_witness :
    parse_current_input "abc" = none ∧ parse_current_input "10m" = none := by
  constructor
  · exact parse_current_corrected.2.2.1 "abc" (by decide) (by decide)
  · exact (parse_current_corrected.2.2.2.1 "10m"
      { neg := false, coeff := 10, exp := 0 } ['m'] "m" (by decide) (by decide)
      (by decide)).2.2.2 (by decide) (by decide) (by decide)

/-- Claim C6, counterexample: the claim says every current-valued field of
every test type passes through the Parameter Codec and a codec failure on
a required current field makes the add fail before any command is sent;
but a CONT step's current field is transmitted verbatim: with the
unparseable current "abc" (codec failure) the add succeeds and sends
"ADD,CONT,abc,,0.1,1.0". -/
theorem add_step_cont_current_not_validated :
    parse_current_input "abc" = none
    ∧ (add_step_to_device devOKw st0 cfgContBad).1 = true
    ∧ (add_step_to_device devOKw st0 cfgContBad).2.2
        = ["ADD,CONT,abc,,0.1,1.0"] := by decide

/-- Claim C6, amended: only the ACW and DCW current limits pass through
the Parameter Codec, and a codec failure on either aborts the add with no
command sent; the CONT and GND current fields are placed in the command
verbatim, without codec validation. -/
theorem add_step_codec_scope_corrected :
    (∀ (dev : AddDevice) (st : SeqState) (cfg : StepConfig),
      (cfg.type = some "ACW" ∨ cfg.type = some "DCW") →
      (parse_current_input (cfg.min_limit.getD "") = none
       ∨ parse_current_input (cfg.max_limit.getD "5mA") = none) →
      (add_step_to_device dev st cfg).1 = false
      ∧ (add_step_to_device dev st cfg).2.2 = [])
    ∧ (∀ cfg : StepConfig, buildParams "CONT" cfg =
        some [cfg.current.getD "0.1", cfg.min_limit.getD "",
              cfg.max_limit.getD "0.1", cfg.dwell_time.getD "1.0"])
    ∧ (∀ cfg : StepConfig, buildParams "GND" cfg =
        some [cfg.current.getD "10", cfg.max_limit.getD "0.1",
              cfg.dwell_time.getD "2.0", cfg.freq.getD "60"]) := by
  refine ⟨?_, ?_, ?_⟩
  · intro dev st cfg htype hparse
    rcases htype with h | h
    · refine add_step_build_none dev st cfg "ACW" h ?_
      rcases hparse with hp | hp
      · rcases hmax : parse_current_input (cfg.max_limit.getD "5mA") with _ | mx <;>
          simp [buildParams, hp, hmax]
      · rcases hmin : parse_current_input (cfg.min_limit.getD "") with _ | mn <;>
          simp [buildParams, hmin, hp]
    · refine add_step_build_none dev st cfg "DCW" h ?_
      rcases hparse with hp | hp
      · rcases hmax : parse_current_input (cfg.max_limit.getD "5mA") with _ | mx <;>
          simp [buildParams, hp, hmax]
      · rcases hmin : parse_current_input (cfg.min_limit.getD "") with _ | mn <;>
          simp [buildParams, hmin, hp]
  · intro cfg
    unfold buildParams
    rw [if_neg (by decide), if_neg (by decide), if_neg (by decide), if_pos rfl]
  · intro cfg
    unfold buildParams
    rw [if_neg (by decide), if_neg (by decide), if_neg (by decide),
      if_neg (by decide), if_pos rfl]

/-- Witness for the amended C6: an ACW step whose min limit fails the
codec is rejected with nothing sent, and the CONT parameter list carries
the current field verbatim. -/
theorem add_step_codec_scope_corrected_witness :
    ((add_step_to_device devOKw st0 cfgAcwBadMin).1 = false
     ∧ (add_step_to_device devOKw st0 cfgAcwBadMin).2.2 = [])
    ∧ buildParams "CONT" cfgContBad = some ["abc", "", "0.1", "1.0"] := by
  constructor
  · exact add_step_codec_scope_corrected.1 devOKw st0 cfgAcwBadMin (Or.inl rfl)
      (Or.inl (by decide))
  · rw [add_step_codec_scope_corrected.2.1 cfgContBad]
    decide

/-- Claim C7: clear_sequence_on_device is atomic with respect to local
state: every failure outcome leaves the sequencer state (sequence list
and persisted-sequence identity) exactly as it was, and the success
outcome resets the list to empty and the identity to unset. -/
theorem clear_sequence_atomic :
    ∀ (dev : ClearDevice) (st : SeqState),
      ((clear_sequence_on_device dev st).1 = false →
        (clear_sequence_on_device dev st).2.1 = st)
      ∧ ((clear_sequence_on_device dev st).1 = true →
        (clear_sequence_on_device dev st).2.1
          = { sequence := [], current_sequence_id := none,
              current_sequence_name := none,
              current_sequence_description := none }) := by
  intro dev st
  simp only [clear_sequence_on_device]
  repeat' split
  all_goals refine ⟨fun h => ?_, fun h => ?_⟩
  all_goals first | rfl | simp at h

/-- Witness for C7 at concrete devices: a failed NOSEQ leaves a loaded
state intact, a confirmed clear resets the state. -/
theorem clear_sequence_atomic_witness :
    (clear_sequence_on_device devClearFailw stLoaded).2.1 = stLoaded
    ∧ (clear_sequence_on_device devClearOKw stLoaded).2.1
        = { sequence := [], current_sequence_id := none,
            current_sequence_name := none,
            current_sequence_description := none } := by
  exact ⟨(clear_sequence_atomic devClearFailw stLoaded).1 (by decide),
    (clear_sequence_atomic devClearOKw stLoaded).2 (by decide)⟩

/-- Claim C9: close() is idempotent at success: on a never-opened or
already-closed driver it returns success, ends in the closed state, and a
second call again returns success and stays closed; moreover every close
leaves the driver closed, so a repeated close always succeeds. -/
theorem close_idempotent_success :
    (∀ d : V7xDriver, d.is_open = false →
      (close d).1 = true ∧ (close d).2.is_open = false
      ∧ (close (close d).2).1 = true ∧ (close (close d).2).2.is_open = false)
    ∧ (∀ d : V7xDriver, (close d).2.is_open = false)
    ∧ (∀ d : V7xDriver, (close (close d).2).1 = true) := by
  refine ⟨?_, close_state_closed, fun d => close_closed_true _ (close_state_closed d)⟩
  intro d h
  exact ⟨close_closed_true d h, close_state_closed d,
    close_closed_true _ (close_state_closed d), close_state_closed _⟩

/-- Witness for C9: a never-opened driver reports success on a first and
on a second close. -/
theorem close_idempotent_success_witness :
    (close driverNeverOpened).1 = true
    ∧ (close (close driverNeverOpened).2).1 = true := by
  have h := close_idempotent_success.1 driverNeverOpened rfl
  exact ⟨h.1, h.2.2.1⟩

end Hipot

